import Mathlib

/-!
Verification development for the FlowFix platform: the project/proposal/invoice
lifecycle, billing computations, authorization redaction, and the invoice
payment page. Backend services (Project Lifecycle Service, Billing Service,
Authorization Middleware, webhook handler) are not present in the repository
snapshot; they are modelled from the specification (sections 4.1-4.4, 6, 7) and
from the backend code excerpts quoted in
development-principles-compliance-report.md. The invoice payment page is
embedded directly from client/src/pages/invoice-payment.tsx.
-/

namespace FlowFix

/-- Project lifecycle status, from spec section 3 (Project data model). -/
inductive ProjectStatus
  | submitted
  | assigned
  | proposed
  | accepted
  | in_progress
  | completed
  | cancelled
deriving DecidableEq, Repr

/-- Lifecycle transition requests, one per edge family of spec section 4.2. -/
inductive TransitionEvent
  | assignAdmin      -- master_admin assigns adminId
  | createProposal   -- admin creates Proposal
  | acceptProposal   -- client accepts Proposal
  | rejectProposal   -- client rejects Proposal
  | startWork        -- admin marks work started
  | markComplete     -- admin marks complete
  | cancel           -- client or master_admin cancels
deriving DecidableEq, Repr

/-- Error kinds from spec section 7 that the embedded operations return. -/
inductive DomainError
  | InvalidTransition
  | ConflictingProposal
  | PaymentMethodRequired
  | ValidationError
deriving DecidableEq, Repr

/-- Modelled from the spec: the Project Lifecycle Service state machine of
section 4.2 (the backend service itself is not in the repository snapshot).
Given the stored status and a transition request, returns the next status when
the requested edge is legal from the current state, `none` otherwise.
`completed` and `cancelled` are terminal. -/
def nextStatus : ProjectStatus → TransitionEvent → Option ProjectStatus
  | .submitted, .assignAdmin => some .assigned
  | .assigned, .createProposal => some .proposed
  | .proposed, .acceptProposal => some .accepted
  | .proposed, .rejectProposal => some .assigned
  | .accepted, .startWork => some .in_progress
  | .in_progress, .markComplete => some .completed
  | .submitted, .cancel => some .cancelled
  | .assigned, .cancel => some .cancelled
  | .proposed, .cancel => some .cancelled
  | .accepted, .cancel => some .cancelled
  | .in_progress, .cancel => some .cancelled
  | _, _ => none

/-- Modelled from the spec: a transition is checked-then-applied against the
stored status (section 4.2); on a non-matching current state it returns
`InvalidTransition` and leaves the stored status unchanged. The first component
is the stored status after the call; the second is the returned error, if any. -/
def applyTransition (stored : ProjectStatus) (e : TransitionEvent) :
    ProjectStatus × Option DomainError :=
  match nextStatus stored e with
  | some s => (s, none)
  | none => (stored, some .InvalidTransition)

/-- The edge set of the section-4.2 state machine as listed in the claim:
submitted->assigned, assigned->proposed, proposed->accepted,
proposed->assigned, accepted->in_progress, in_progress->completed, and any
non-terminal state -> cancelled. -/
def isLifecycleEdge : ProjectStatus → ProjectStatus → Bool
  | .submitted, .assigned => true
  | .assigned, .proposed => true
  | .proposed, .accepted => true
  | .proposed, .assigned => true
  | .accepted, .in_progress => true
  | .in_progress, .completed => true
  | .submitted, .cancelled => true
  | .assigned, .cancelled => true
  | .proposed, .cancelled => true
  | .accepted, .cancelled => true
  | .in_progress, .cancelled => true
  | _, _ => false

/-- C1: For every Project and every lifecycle-transition request, the stored
status changes only along the edges of the section-4.2 state machine; a
transition attempted from a non-matching current state returns
`InvalidTransition` and leaves the stored status unchanged. -/
theorem transition_respects_state_machine (stored : ProjectStatus) (e : TransitionEvent) :
    (∃ s, applyTransition stored e = (s, none) ∧ isLifecycleEdge stored s = true) ∨
    applyTransition stored e = (stored, some DomainError.InvalidTransition) := by
  cases stored <;> cases e <;> simp [applyTransition, nextStatus, isLifecycleEdge]

/-! ## Billing Service (spec section 4.3) -/

/-- JavaScript `Math.round` on an exact rational: round half toward positive
infinity, as used in the backend excerpts quoted in the compliance report
(`Math.round(parseFloat(hourlyRate) * 100)`). -/
def jsRound (q : ℚ) : ℤ := ⌊q + 1 / 2⌋

/-- TimeEntry, from spec section 3: append-only rows of fractional hours
logged by an admin for a project. -/
structure TimeEntry where
  adminId : Nat
  hoursSpent : ℚ
  loggedAt : Nat
deriving DecidableEq, Repr

/-- Invoice status, from spec section 3. -/
inductive InvoiceStatus
  | pending
  | paid
  | failed
deriving DecidableEq, Repr

/-- Invoice, from spec section 3: amount in integer cents, immutable after
creation except for the status/paidAt transition to paid. -/
structure Invoice where
  amount : ℤ
  status : InvoiceStatus
  paidAt : Option Nat
deriving DecidableEq, Repr

/-- Modelled from the spec: the per-project billing ledger of the Billing
Service (section 4.3, not in the repository snapshot): the append-only list of
TimeEntry rows together with the billed-through watermark marking how many of
the leading entries have already been attributed to a prior Invoice. -/
structure BillingLedger where
  entries : List TimeEntry
  billedThrough : Nat
deriving Repr

/-- The TimeEntry rows not yet attributed to any prior Invoice. -/
def BillingLedger.unbilled (s : BillingLedger) : List TimeEntry :=
  s.entries.drop s.billedThrough

/-- Sum of the still-unbilled hours of the ledger. -/
def BillingLedger.unbilledHours (s : BillingLedger) : ℚ :=
  (s.unbilled.map TimeEntry.hoursSpent).sum

/-- Modelled from the spec: hourly invoicing (section 4.3): the amount is
`round(sum(TimeEntry.hoursSpent for the unbilled entries) x Proposal.hourlyRate)`
in integer cents, computed at invoicing time; the watermark then advances past
every entry just billed, so they are excluded from any later invoice. Returns
the created Invoice and the updated ledger. -/
def createHourlyInvoice (s : BillingLedger) (hourlyRate : ℤ) :
    Invoice × BillingLedger :=
  let amount := jsRound (s.unbilledHours * hourlyRate)
  (⟨amount, .pending, none⟩, ⟨s.entries, s.entries.length⟩)

/-- C2: for an hourly-priced Project the Invoice amount equals the rounded
product of the unbilled hours and the hourly rate; in particular one unbilled
TimeEntry of 6.5 hours at hourlyRate 10000 cents yields amount 65000. -/
theorem hourly_invoice_amount :
    (∀ (s : BillingLedger) (rate : ℤ),
      (createHourlyInvoice s rate).1.amount =
        jsRound (((s.entries.drop s.billedThrough).map TimeEntry.hoursSpent).sum * rate)) ∧
    (createHourlyInvoice ⟨[⟨1, 13 / 2, 0⟩], 0⟩ 10000).1.amount = 65000 := by
  constructor
  · intro s rate
    rfl
  · norm_num [createHourlyInvoice, BillingLedger.unbilledHours, BillingLedger.unbilled,
      jsRound]

/-- C3: invoicing twice in succession with no new TimeEntry appended between
the calls produces a zero-amount second invoice: the watermark set by the first
call excludes every already-billed row from the second. -/
theorem hourly_invoice_idempotent (s : BillingLedger) (rate : ℤ) :
    (createHourlyInvoice (createHourlyInvoice s rate).2 rate).1.amount = 0 := by
  simp [createHourlyInvoice, BillingLedger.unbilledHours, BillingLedger.unbilled, jsRound]
  norm_num

/-! ## Payment intent creation and webhook confirmation (spec sections 4.3, 6) -/

/-- Payment processor configuration: the server credential
(STRIPE_SECRET_KEY in the repository) may be absent. -/
structure ProcessorConfig where
  serverCredential : Option String
deriving Repr

/-- The processor side outcome of an intent request, an external collaborator
response: either an opaque client secret or a processor-side decline. -/
inductive ProcessorOutcome
  | accepted (secret : String)
  | declinedByProcessor (reason : String)
deriving DecidableEq, Repr

/-- The structured result of payment-intent creation as consumed by the client
page (invoice-payment.tsx reads `data.requiresSetup`, `data.error`,
`data.clientSecret`). -/
inductive PaymentIntentResult
  | clientSecret (secret : String)
  | requiresSetup (error : String)
  | declined (reason : String)
deriving DecidableEq, Repr

/-- Modelled from the spec: Billing Service payment-intent creation (section
4.3, backend endpoint not in the repository snapshot): with no server
credential configured it returns the structured configuration outcome
`requiresSetup` surfaced as payment processing unavailable; otherwise it
forwards the invoice amount to the processor and returns the opaque client
secret or the processor-side decline. -/
def createPaymentIntent (cfg : ProcessorConfig) (inv : Invoice)
    (processor : ℤ → ProcessorOutcome) : PaymentIntentResult :=
  match cfg.serverCredential with
  | none => .requiresSetup "Payment processing unavailable"
  | some _ =>
    match processor inv.amount with
    | .accepted secret => .clientSecret secret
    | .declinedByProcessor reason => .declined reason

/-- C4: with the processor server credential not configured, payment-intent
creation returns the `requiresSetup` configuration outcome (payment processing
unavailable), never a client secret, and the outcome differs from every
processor-side decline. -/
theorem payment_intent_requires_setup (cfg : ProcessorConfig) (inv : Invoice)
    (processor : ℤ → ProcessorOutcome) (h : cfg.serverCredential = none) :
    createPaymentIntent cfg inv processor =
        .requiresSetup "Payment processing unavailable" ∧
    (∀ s, createPaymentIntent cfg inv processor ≠ .clientSecret s) ∧
    (∀ r, createPaymentIntent cfg inv processor ≠ .declined r) := by
  simp [createPaymentIntent, h]

/-- Witness for C4: a concrete unconfigured processor and invoice. -/
theorem payment_intent_requires_setup_witness :
    createPaymentIntent ⟨none⟩ ⟨50000, .pending, none⟩ (fun _ => .accepted "sk") =
        .requiresSetup "Payment processing unavailable" :=
  (payment_intent_requires_setup ⟨none⟩ ⟨50000, .pending, none⟩
    (fun _ => .accepted "sk") rfl).1

/-- A webhook-style confirmation event from the payment processor, already
signature-verified (spec section 4.3). -/
inductive WebhookEvent
  | succeeded
  | failed
deriving DecidableEq, Repr

/-- Modelled from the spec: the webhook confirmation handler (section 4.3,
backend endpoint not in the repository snapshot). It transitions
`Invoice.status` on a verified `succeeded`/`failed` event and fires downstream
notifications, except that an event for an already-paid invoice is a no-op:
no state change and no notification. Returns the stored invoice after the
call and the list of downstream notifications fired. -/
def handleWebhookConfirmation (inv : Invoice) (ev : WebhookEvent) (now : Nat) :
    Invoice × List String :=
  match inv.status with
  | .paid => (inv, [])
  | _ =>
    match ev with
    | .succeeded => (⟨inv.amount, .paid, some now⟩, ["invoice.paid"])
    | .failed => (⟨inv.amount, .failed, inv.paidAt⟩, ["invoice.failed"])

/-- C5: processing a webhook confirmation for an invoice whose status is
already paid changes no stored state (status and paidAt stay as they were) and
fires no downstream notification. -/
theorem webhook_paid_noop (inv : Invoice) (ev : WebhookEvent) (now : Nat)
    (h : inv.status = InvoiceStatus.paid) :
    handleWebhookConfirmation inv ev now = (inv, []) := by
  cases inv with
  | mk amount status paidAt =>
    cases status <;> simp_all [handleWebhookConfirmation]

/-- Witness for C5: a concrete already-paid invoice and a second succeeded
event. -/
theorem webhook_paid_noop_witness :
    handleWebhookConfirmation ⟨65000, .paid, some 7⟩ .succeeded 9 =
      (⟨65000, .paid, some 7⟩, []) :=
  webhook_paid_noop ⟨65000, .paid, some 7⟩ .succeeded 9 rfl

/-! ## Proposal creation and the pricing-field invariant (spec section 3) -/

/-- Pricing type of a Proposal, from spec section 3. -/
inductive PricingType
  | hourly
  | flat_fee
deriving DecidableEq, Repr

/-- Proposal status, from spec section 3. -/
inductive ProposalStatus
  | pending
  | accepted
  | rejected
deriving DecidableEq, Repr

/-- Proposal, from spec section 3: monetary fields in integer cents,
estimated hours fractional. -/
structure Proposal where
  pricingType : PricingType
  hourlyRate : Option ℤ
  estimatedHours : Option ℚ
  fixFee : Option ℤ
  status : ProposalStatus
deriving DecidableEq, Repr

/-- A create-proposal request: the pricing fields as they arrive, before
validation. -/
structure ProposalInput where
  pricingType : PricingType
  hourlyRate : Option ℤ
  estimatedHours : Option ℚ
  fixFee : Option ℤ
deriving DecidableEq, Repr

/-- The spec section 3 invariant: exactly one of the field groups
hourlyRate+estimatedHours or fixFee is populated, matching pricingType. -/
def Proposal.pricingInvariant (p : Proposal) : Bool :=
  match p.pricingType with
  | .hourly => p.hourlyRate.isSome && p.estimatedHours.isSome && p.fixFee.isNone
  | .flat_fee => p.fixFee.isSome && p.hourlyRate.isNone && p.estimatedHours.isNone

/-- Both pricing-field groups populated in the request. -/
def ProposalInput.bothGroups (i : ProposalInput) : Bool :=
  i.hourlyRate.isSome && i.estimatedHours.isSome && i.fixFee.isSome

/-- Neither pricing-field group fully populated in the request. -/
def ProposalInput.neitherGroup (i : ProposalInput) : Bool :=
  !(i.hourlyRate.isSome && i.estimatedHours.isSome) && i.fixFee.isNone

/-- Modelled from the spec: proposal-creation validation (spec section 3 and
the implementation plan: validate pricingType, for hourly require hourlyRate
and estimatedHours, for flat_fee require fixFee; exactly one group populated).
On failure nothing is stored and `ValidationError` is returned. -/
def createProposal (i : ProposalInput) : Except DomainError Proposal :=
  match i.pricingType with
  | .hourly =>
    match i.hourlyRate, i.estimatedHours, i.fixFee with
    | some r, some h, none => .ok ⟨.hourly, some r, some h, none, .pending⟩
    | _, _, _ => .error .ValidationError
  | .flat_fee =>
    match i.hourlyRate, i.estimatedHours, i.fixFee with
    | none, none, some f => .ok ⟨.flat_fee, none, none, some f, .pending⟩
    | _, _, _ => .error .ValidationError

/-- C6: every stored Proposal satisfies the exactly-one-pricing-group
invariant matching its pricingType, and a creation request with both groups
populated or with neither fails with `ValidationError`, storing nothing. -/
theorem proposal_pricing_invariant (i : ProposalInput) :
    (∀ p, createProposal i = .ok p → p.pricingInvariant = true) ∧
    (i.bothGroups = true ∨ i.neitherGroup = true →
      createProposal i = .error DomainError.ValidationError) := by
  obtain ⟨t, r, h, f⟩ := i
  cases t <;> cases r <;> cases h <;> cases f <;>
    simp [createProposal, Proposal.pricingInvariant, ProposalInput.bothGroups,
      ProposalInput.neitherGroup]

/-- Witness for C6: a valid hourly request creates a proposal satisfying the
invariant, and a request with both groups populated fails validation. -/
theorem proposal_pricing_invariant_witness :
    createProposal ⟨.hourly, some 10000, some 5, none⟩ =
        .ok ⟨.hourly, some 10000, some 5, none, .pending⟩ ∧
    Proposal.pricingInvariant ⟨.hourly, some 10000, some 5, none, .pending⟩ = true ∧
    createProposal ⟨.hourly, some 10000, some 5, some 50000⟩ =
        .error DomainError.ValidationError :=
  ⟨rfl,
   (proposal_pricing_invariant ⟨.hourly, some 10000, some 5, none⟩).1
     ⟨.hourly, some 10000, some 5, none, .pending⟩ rfl,
   (proposal_pricing_invariant ⟨.hourly, some 10000, some 5, some 50000⟩).2
     (Or.inl rfl)⟩

/-! ## Monetary boundary parsing (compliance report section 9)

The backend converts decimal monetary strings with
`Math.round(parseFloat(x) * 100)`. `parseFloat` yields an IEEE-754 binary64
value, so the conversion is embedded through a binary64 model: the decimal
string is first read exactly, then rounded to the nearest representable
double (53-bit significand, round-to-nearest ties-to-even, normal range —
adequate for every monetary magnitude), the multiplication by 100 rounds its
exact product the same way, and `Math.round` takes the floor of the exact
value of the resulting double plus one half, per the ECMAScript definition. -/

/-- User role, from spec section 3. -/
inductive Role
  | client
  | software_admin
  | master_admin
deriving DecidableEq, Repr

/-- The narrowed view of a Proposal returned to a caller: every field is
optional so monetary fields can be absent from the view altogether. -/
structure ProposalView where
  pricingType : PricingType
  hourlyRate : Option ℤ
  estimatedHours : Option ℚ
  fixFee : Option ℤ
  status : ProposalStatus
deriving DecidableEq, Repr

/-- Modelled from the spec: the Authorization Middleware narrowing of a
Proposal to the caller role (section 4.1, rule 3; the middleware is not in
the repository snapshot): a software_admin view redacts the monetary fields
(hourlyRate, fixFee) at content level; other roles that may read the
Proposal receive the full view. -/
def proposalViewFor (role : Role) (p : Proposal) : ProposalView :=
  match role with
  | .software_admin => ⟨p.pricingType, none, p.estimatedHours, none, p.status⟩
  | _ => ⟨p.pricingType, p.hourlyRate, p.estimatedHours, p.fixFee, p.status⟩

/-- C8: a Proposal read under a software_admin session returns a view with no
monetary field, and the view is independent of the stored monetary values:
two Proposals agreeing on the non-monetary fields yield identical
software_admin views whatever their hourlyRate and fixFee. -/
theorem software_admin_view_redacts_money (p q : Proposal)
    (ht : p.pricingType = q.pricingType) (he : p.estimatedHours = q.estimatedHours)
    (hs : p.status = q.status) :
    (proposalViewFor Role.software_admin p).hourlyRate = none ∧
    (proposalViewFor Role.software_admin p).fixFee = none ∧
    proposalViewFor Role.software_admin p = proposalViewFor Role.software_admin q := by
  simp [proposalViewFor, ht, he, hs]

/-- Witness for C8: two proposals differing only in their monetary fields
produce the same redacted software_admin view. -/
theorem software_admin_view_redacts_money_witness :
    (proposalViewFor Role.software_admin ⟨.hourly, some 10000, some 5, none, .pending⟩).hourlyRate
      = none ∧
    (proposalViewFor Role.software_admin ⟨.hourly, some 10000, some 5, none, .pending⟩).fixFee
      = none ∧
    proposalViewFor Role.software_admin ⟨.hourly, some 10000, some 5, none, .pending⟩ =
      proposalViewFor Role.software_admin ⟨.hourly, some 99999, some 5, some 1, .pending⟩ :=
  software_admin_view_redacts_money
    ⟨.hourly, some 10000, some 5, none, .pending⟩
    ⟨.hourly, some 99999, some 5, some 1, .pending⟩ rfl rfl rfl

/-! ## Fire-and-forget notification dispatch (spec section 4.4, compliance
report section 6) -/

/-- The delivery outcome of one dispatched notification, resolved after the
triggering request has already returned. -/
inductive NotifyOutcome
  | delivered
  | failedWith (err : String)
deriving DecidableEq, Repr

/-- The fire-and-forget dispatch pattern quoted in the compliance report
section 6 (`void sendProjectAssignmentNotification(...).catch(log)`): a
delivery failure is caught and appended to the log, nothing else happens. -/
def dispatchNotify (outcome : NotifyOutcome) (log : List String) : List String :=
  match outcome with
  | .delivered => log
  | .failedWith err => log ++ [err]

/-- Modelled from the spec: a lifecycle transition together with its
notification side effect (sections 4.2 and 4.4): on a successful transition a
notification is dispatched fire-and-forget; the dispatch result is never
consulted and cannot raise into the caller. Returns the transition result
(new stored status and error, exactly as `applyTransition`) and the log. -/
def transitionWithNotification (stored : ProjectStatus) (e : TransitionEvent)
    (outcome : NotifyOutcome) (log : List String) :
    (ProjectStatus × Option DomainError) × List String :=
  let r := applyTransition stored e
  match r.2 with
  | none => (r, dispatchNotify outcome log)
  | some _ => (r, log)

/-- C9: the notification dispatched on a successful transition never raises
into the calling request: the transition result equals the plain
`applyTransition` result, is identical whatever the delivery outcome (a
failure cannot block or roll it back), and a delivery failure at most appends
a log entry. -/
theorem notification_never_blocks_transition (stored : ProjectStatus)
    (e : TransitionEvent) (o1 o2 : NotifyOutcome) (log : List String)
    (err : String) :
    (transitionWithNotification stored e o1 log).1 = applyTransition stored e ∧
    (transitionWithNotification stored e o1 log).1 =
      (transitionWithNotification stored e o2 log).1 ∧
    ((transitionWithNotification stored e (.failedWith err) log).2 = log ∨
     (transitionWithNotification stored e (.failedWith err) log).2 = log ++ [err]) := by
  unfold transitionWithNotification
  refine ⟨?_, ?_, ?_⟩
  · cases h : (applyTransition stored e).2 <;> simp [h]
  · cases h : (applyTransition stored e).2 <;> simp [h]
  · cases h : (applyTransition stored e).2 <;> simp [h, dispatchNotify]

/-! ## The invoice payment page (client/src/pages/invoice-payment.tsx) -/

/-- The component state of `InvoicePayment` that the render step reads:
the invoice query state, the `paymentSetupError` and `clientSecret` strings
(JavaScript-falsy when empty), and whether `stripePromise` is non-null. -/
structure PageState where
  isLoadingInvoice : Bool
  invoice : Option Invoice
  paymentSetupError : String
  stripeConfigured : Bool
  clientSecret : String
deriving DecidableEq, Repr

/-- The mutually exclusive top-level views the `InvoicePayment` component can
render; `paymentForm` is the branch mounting `PaymentElement` with the
Pay Now submission. -/
inductive RenderedView
  | loadingInvoice
  | invoiceNotFound
  | alreadyPaid
  | paymentNotAvailable
  | stripeNotConfigured
  | loadingPayment
  | paymentForm
deriving DecidableEq, Repr

/-- The render decision of `InvoicePayment` (invoice-payment.tsx lines
133-263): early return while the invoice query loads, then for a missing
invoice, then the already-paid card for `status === 'paid'`, and otherwise the
`paymentSetupError` / missing `stripePromise` / missing `clientSecret` /
payment form chain. -/
def renderInvoicePaymentPage (st : PageState) : RenderedView :=
  if st.isLoadingInvoice then .loadingInvoice
  else
    match st.invoice with
    | none => .invoiceNotFound
    | some inv =>
      if inv.status = .paid then .alreadyPaid
      else if st.paymentSetupError ≠ "" then .paymentNotAvailable
      else if !st.stripeConfigured then .stripeNotConfigured
      else if st.clientSecret = "" then .loadingPayment
      else .paymentForm

/-- The effect of invoice-payment.tsx lines 97-131: the create-payment-intent
request is issued whenever a route invoice id is present; the fetched invoice
(and hence its status) is not consulted, so issuance is unconditional on page
load. -/
def intentRequestIssued (invoiceId : String) (fetchedInvoice : Option Invoice) :
    Bool :=
  invoiceId ≠ ""

/-- C10: once a fetched Invoice has status paid, the page renders only the
already-paid view and never the payment form — for any component state whose
invoice is paid, the render is not `paymentForm` — while the
create-payment-intent request issuance is independent of the fetched invoice. -/
theorem paid_invoice_never_renders_payment_form (st : PageState) (inv : Invoice)
    (hl : st.isLoadingInvoice = false) (hi : st.invoice = some inv)
    (hp : inv.status = InvoiceStatus.paid) :
    renderInvoicePaymentPage st = RenderedView.alreadyPaid ∧
    (∀ (st2 : PageState) (inv2 : Invoice), st2.invoice = some inv2 →
      inv2.status = InvoiceStatus.paid →
      renderInvoicePaymentPage st2 ≠ RenderedView.paymentForm) ∧
    (∀ (id : String) (a b : Option Invoice),
      intentRequestIssued id a = intentRequestIssued id b) := by
  refine ⟨?_, ?_, fun id a b => rfl⟩
  · simp [renderInvoicePaymentPage, hl, hi, hp]
  · intro st2 inv2 hi2 hp2
    by_cases hl2 : st2.isLoadingInvoice <;>
      simp [renderInvoicePaymentPage, hl2, hi2, hp2]

/-- Witness for C10: a concrete loaded paid invoice renders the already-paid
view. -/
theorem paid_invoice_never_renders_payment_form_witness :
    renderInvoicePaymentPage ⟨false, some ⟨65000, .paid, some 7⟩, "", true, "cs"⟩ =
      RenderedView.alreadyPaid :=
  (paid_invoice_never_renders_payment_form
    ⟨false, some ⟨65000, .paid, some 7⟩, "", true, "cs"⟩
    ⟨65000, .paid, some 7⟩ rfl rfl rfl).1

end FlowFix
